import Mathlib

/-!
Shallow embedding of `src/main/main.c` from the esp32-lvgl-ssd1306-demo
repository (an LVGL demo application for ESP32).

The file models:
* the build-time configuration dimensions that the preprocessor
  conditionals in `main.c` branch on (monochrome display, display
  controller, touch controller);
* the display-buffer and display-driver setup performed by `guiTask`
  (buffers `buf1`/`buf2`, `size_in_px`, `lv_disp_buf_init`,
  `lv_disp_drv_init`, the callback assignments);
* the tick callback `lv_tick_task` and the logical clock driven by
  `lv_tick_inc`;
* the startup sequence of `guiTask` as an event trace, with the
  `ESP_ERROR_CHECK`-guarded timer calls as a fallible startup run;
* the steady-state `while (1)` loop of `guiTask` as an action trace and
  as a transition system over a system state carrying the mutex
  (`xGuiSemaphore`) holder set, the logical clock and an abstract count
  of GUI-state mutations.
-/

namespace LvglDemo

/-- Tick period in milliseconds, from `#define LV_TICK_PERIOD_MS 1`. -/
def LV_TICK_PERIOD_MS : Nat := 1

/-- Display controllers distinguished by the preprocessor conditionals in
`main.c`.  Only the three e-paper controllers are treated specially by the
code (`size_in_px *= 8`); all others share the default path, represented
here by a few representative names plus `other`. -/
inductive Controller
  | IL3820
  | JD79653A
  | UC8151D
  | SSD1306
  | ILI9341
  | other
deriving DecidableEq, Repr

/-- The condition of the preprocessor conditional that tests whether one
of CONFIG_LV_TFT_DISPLAY_CONTROLLER_IL3820,
CONFIG_LV_TFT_DISPLAY_CONTROLLER_JD79653A or
CONFIG_LV_TFT_DISPLAY_CONTROLLER_UC8151D is defined. -/
def Controller.isEPaper : Controller → Bool
  | .IL3820 => true
  | .JD79653A => true
  | .UC8151D => true
  | _ => false

/-- Build-time configuration of `main.c`:
`monochrome` is `CONFIG_LV_TFT_DISPLAY_MONOCHROME`,
`controller` is the `CONFIG_LV_TFT_DISPLAY_CONTROLLER_*` selection,
`touch` is `CONFIG_LV_TOUCH_CONTROLLER != TOUCH_CONTROLLER_NONE`,
`DISP_BUF_SIZE` is the buffer element count supplied by the external
`lvgl_helpers.h` header. -/
structure Config where
  monochrome : Bool
  controller : Controller
  touch : Bool
  DISP_BUF_SIZE : Nat
deriving DecidableEq, Repr

/-- Size passed to `lv_disp_buf_init`: starts at `DISP_BUF_SIZE` and is
multiplied by 8 for the three e-paper controllers (`size_in_px *= 8`),
since for those each byte of the buffer covers 8 pixels. -/
def size_in_px (cfg : Config) : Nat :=
  let s := cfg.DISP_BUF_SIZE
  if cfg.controller.isEPaper then s * 8 else s

/-- References to the statically allocated display buffers of `guiTask`.
`buf1` and `buf2` are distinct static arrays in the C source. -/
inductive BufRef
  | buf1
  | buf2
deriving DecidableEq, Repr

/-- The `buf2` variable of `guiTask`: a second static buffer when not
monochrome (`#ifndef CONFIG_LV_TFT_DISPLAY_MONOCHROME`), the null pointer
(`static lv_color_t *buf2 = NULL`) when monochrome. -/
def buf2 (cfg : Config) : Option BufRef :=
  if cfg.monochrome then none else some BufRef.buf2

/-- Driver callback functions assigned in `guiTask`. -/
inductive Callback
  | disp_driver_flush
  | disp_driver_rounder
  | disp_driver_set_px
  | touch_driver_read
deriving DecidableEq, Repr

/-- The `lv_disp_buf_t disp_buf` value after
`lv_disp_buf_init(&disp_buf, buf1, buf2, size_in_px)`. -/
structure lv_disp_buf_t where
  buf1 : Option BufRef
  buf2 : Option BufRef
  size : Nat
deriving DecidableEq, Repr

/-- Result of `lv_disp_buf_init(&disp_buf, buf1, buf2, size_in_px)`:
the first buffer is always `buf1`, the second is the `buf2` variable
(null for monochrome), the size is `size_in_px`. -/
def disp_buf (cfg : Config) : lv_disp_buf_t :=
  { buf1 := some BufRef.buf1
    buf2 := buf2 cfg
    size := size_in_px cfg }

/-- The fields of `lv_disp_drv_t` that `guiTask` touches. -/
structure lv_disp_drv_t where
  flush_cb : Option Callback
  rounder_cb : Option Callback
  set_px_cb : Option Callback
  buffer : Option lv_disp_buf_t
deriving DecidableEq, Repr

/-- `lv_disp_drv_init(&disp_drv)`: all modelled fields start as null. -/
def lv_disp_drv_init : lv_disp_drv_t :=
  { flush_cb := none
    rounder_cb := none
    set_px_cb := none
    buffer := none }

/-- The `disp_drv` value handed to `lv_disp_drv_register` in `guiTask`:
initialised by `lv_disp_drv_init`, then `flush_cb = disp_driver_flush`;
under `#ifdef CONFIG_LV_TFT_DISPLAY_MONOCHROME` also
`rounder_cb = disp_driver_rounder` and `set_px_cb = disp_driver_set_px`;
finally `buffer = &disp_buf`. -/
def disp_drv (cfg : Config) : lv_disp_drv_t :=
  let d0 := lv_disp_drv_init
  let d1 := { d0 with flush_cb := some Callback.disp_driver_flush }
  let d2 :=
    if cfg.monochrome then
      { d1 with
        rounder_cb := some Callback.disp_driver_rounder
        set_px_cb := some Callback.disp_driver_set_px }
    else d1
  { d2 with buffer := some (disp_buf cfg) }

/-- The two execution contexts of the core: the `guiTask` render task and
the `esp_timer` context that runs `lv_tick_task`. -/
inductive TaskId
  | gui
  | tickTimer
deriving DecidableEq, Repr

/-- System state of the running program: the logical clock maintained by
`lv_tick_inc`, the holder list of the `xGuiSemaphore` mutex, an abstract
count of GUI-state mutations (each completed `lv_task_handler` call), and
the buffer pair registered with the library. -/
structure SysState where
  clock : Nat
  holders : List TaskId
  guiMutations : Nat
  buffers : lv_disp_buf_t
deriving DecidableEq, Repr

/-- `lv_tick_inc(tick_period)`: advances the logical clock by
`tick_period` milliseconds. -/
def lv_tick_inc (clock tick_period : Nat) : Nat :=
  clock + tick_period

/-- The timer callback `lv_tick_task`: its body is exactly
`lv_tick_inc(LV_TICK_PERIOD_MS)`. -/
def lv_tick_task (s : SysState) : SysState :=
  { s with clock := lv_tick_inc s.clock LV_TICK_PERIOD_MS }

/-- Logical clock value after `n` firings of `lv_tick_task`, starting
from a clock value of 0 and with no other clock writes. -/
def clockAfter : Nat → Nat
  | 0 => 0
  | n + 1 => lv_tick_inc (clockAfter n) LV_TICK_PERIOD_MS

/-- Actions performed by one iteration of the `while (1)` loop body of
`guiTask`.  `vTaskDelay` carries the sleep length in milliseconds
(`pdMS_TO_TICKS(10)` converts 10 ms to RTOS ticks); `semTake` carries
the result of `xSemaphoreTake(xGuiSemaphore, portMAX_DELAY)`. -/
inductive Action
  | vTaskDelay (ms : Nat)
  | semTake (result : Bool)
  | lv_task_handler
  | semGive
deriving DecidableEq, Repr

/-- Result of `xSemaphoreTake(xGuiSemaphore, portMAX_DELAY)`: with an
unbounded wait the take blocks until the mutex is free and then returns
`pdTRUE`. -/
def xSemaphoreTakeMaxDelay : Bool := true

/-- One iteration of the steady-state loop body, as a function of the
take result: `vTaskDelay(pdMS_TO_TICKS(10))`, then the take, then —
only when the take returned `pdTRUE` — `lv_task_handler()` followed by
`xSemaphoreGive(xGuiSemaphore)`. -/
def guiLoopBody (takeResult : Bool) : List Action :=
  Action.vTaskDelay 10 :: Action.semTake takeResult ::
    (if takeResult then [Action.lv_task_handler, Action.semGive] else [])

/-- The steady-state iteration as actually executed: the unbounded-wait
take returns `pdTRUE`. -/
def guiLoopIteration : List Action :=
  guiLoopBody xSemaphoreTakeMaxDelay

/-- Action trace of the first `n` iterations of the steady-state loop.
It is total in `n`: the loop body has no exit, so every iteration is
followed by another. -/
def guiLoopTrace : Nat → List Action
  | 0 => []
  | n + 1 => guiLoopTrace n ++ guiLoopIteration

/-- Effect of one loop action on the modelled system state.  A delay
changes none of the modelled variables; a successful take makes the gui
task the mutex holder; a failed take changes nothing;
`lv_task_handler` performs one GUI-state mutation; the give releases the
mutex. -/
def applyAction (s : SysState) : Action → SysState
  | .vTaskDelay _ => s
  | .semTake true => { s with holders := [TaskId.gui] }
  | .semTake false => s
  | .lv_task_handler => { s with guiMutations := s.guiMutations + 1 }
  | .semGive => { s with holders := [] }

/-- Runs a list of loop actions from a state. -/
def runActions (s : SysState) (as : List Action) : SysState :=
  as.foldl applyAction s

/-- Startup events of `guiTask`, in source order, plus the loop
iterations that follow them. -/
inductive Event
  | createMutex
  | lv_init
  | lvgl_driver_init
  | lv_disp_buf_init
  | lv_disp_drv_register
  | lv_indev_drv_register
  | esp_timer_create
  | esp_timer_start_periodic
  | create_demo_application
  | loopIteration (n : Nat)
deriving DecidableEq, Repr

/-- The startup sequence of `guiTask` as an event trace, in the order of
the source: create the mutex, `lv_init`, `lvgl_driver_init`,
`lv_disp_buf_init`, `lv_disp_drv_register`, then — only when a touch
controller is configured (`#if CONFIG_LV_TOUCH_CONTROLLER !=
TOUCH_CONTROLLER_NONE`) — `lv_indev_drv_register`, then
`esp_timer_create`, `esp_timer_start_periodic`,
`create_demo_application`. -/
def startupTrace (cfg : Config) : List Event :=
  [Event.createMutex, Event.lv_init, Event.lvgl_driver_init,
   Event.lv_disp_buf_init, Event.lv_disp_drv_register]
  ++ (if cfg.touch then [Event.lv_indev_drv_register] else [])
  ++ [Event.esp_timer_create, Event.esp_timer_start_periodic,
      Event.create_demo_application]

/-- The event trace of `guiTask`: the startup sequence followed by the
first `iters` steady-state loop iterations. -/
def guiTaskTrace (cfg : Config) (iters : Nat) : List Event :=
  startupTrace cfg ++ (List.range iters).map Event.loopIteration

/-- Index of an event in the trace that covers startup and the first
loop iteration. -/
def evIdx (cfg : Config) (e : Event) : Nat :=
  (guiTaskTrace cfg 1).indexOf e

/-- ESP-IDF error codes, as far as `ESP_ERROR_CHECK` distinguishes
them. -/
inductive EspErr
  | ESP_OK
  | ESP_FAIL
deriving DecidableEq, Repr

/-- Outcomes of the fallible operations of the startup sequence:
`mutexCreate` is the result of `xSemaphoreCreateMutex()` (`none` models a
NULL return on allocation failure), `timerCreate` and `timerStart` are
the results of `esp_timer_create` and `esp_timer_start_periodic`. -/
structure Env where
  mutexCreate : Option Unit
  timerCreate : EspErr
  timerStart : EspErr
deriving DecidableEq, Repr

/-- Result of running the startup sequence: either halted by
`ESP_ERROR_CHECK` at a given event, or completed;
`completed lockCreated` records whether `xGuiSemaphore` is non-null. -/
inductive StartupResult
  | halted (e : Event)
  | completed (lockCreated : Bool)
deriving DecidableEq, Repr

/-- The startup sequence of `guiTask` with its failure behaviour.
`xGuiSemaphore = xSemaphoreCreateMutex()` is executed without any check
of the result, so control continues past it in every case; the only
checked calls are `ESP_ERROR_CHECK(esp_timer_create(...))` and
`ESP_ERROR_CHECK(esp_timer_start_periodic(...))`, each of which halts
when its argument is not `ESP_OK`. -/
def runStartup (env : Env) : StartupResult :=
  if env.timerCreate ≠ EspErr.ESP_OK then
    StartupResult.halted Event.esp_timer_create
  else if env.timerStart ≠ EspErr.ESP_OK then
    StartupResult.halted Event.esp_timer_start_periodic
  else
    StartupResult.completed env.mutexCreate.isSome

/-- Program counter of the `guiTask` steady-state loop: about to sleep,
about to take the mutex, inside the critical section (about to run
`lv_task_handler`), or about to give the mutex back. -/
inductive GuiPc
  | sleeping
  | taking
  | inCritical
  | releasing
deriving DecidableEq, Repr

/-- A system configuration for the transition system: the shared state
plus the render task's program counter. -/
structure TsState where
  sys : SysState
  pc : GuiPc
deriving DecidableEq, Repr

/-- Transition relation of the running system.  `tick` is a firing of
`lv_tick_task` from the timer context, enabled at any moment; the other
four steps are the phases of the `guiTask` loop body: the delay, the
mutex take (enabled only when no task holds the mutex — FreeRTOS mutex
semantics of the unbounded wait), the `lv_task_handler` call, and the
mutex give. -/
inductive Step : TsState → TsState → Prop
  | tick (t : TsState) :
      Step t { t with sys := lv_tick_task t.sys }
  | delay (t : TsState) (h : t.pc = GuiPc.sleeping) :
      Step t { t with pc := GuiPc.taking }
  | take (t : TsState) (h : t.pc = GuiPc.taking)
      (hfree : t.sys.holders = []) :
      Step t { sys := { t.sys with holders := [TaskId.gui] },
               pc := GuiPc.inCritical }
  | handler (t : TsState) (h : t.pc = GuiPc.inCritical) :
      Step t { sys := { t.sys with guiMutations := t.sys.guiMutations + 1 },
               pc := GuiPc.releasing }
  | give (t : TsState) (h : t.pc = GuiPc.releasing) :
      Step t { sys := { t.sys with holders := [] },
               pc := GuiPc.sleeping }

/-- Initial state: clock 0, mutex free, no GUI mutations yet, the
render task about to sleep; buffers as registered for some
configuration. -/
def initTs (cfg : Config) : TsState :=
  { sys := { clock := 0, holders := [], guiMutations := 0,
             buffers := disp_buf cfg }
    pc := GuiPc.sleeping }

/-- States reachable from the initial state of some configuration. -/
inductive Reachable (cfg : Config) : TsState → Prop
  | init : Reachable cfg (initTs cfg)
  | step {t t' : TsState} : Reachable cfg t → Step t t' → Reachable cfg t'

/-- Lock invariant: the mutex holder list is determined by the render
task's program counter — empty outside the take..give span, exactly the
gui task inside it. -/
def LockInv (t : TsState) : Prop :=
  ((t.pc = GuiPc.sleeping ∨ t.pc = GuiPc.taking) → t.sys.holders = []) ∧
  ((t.pc = GuiPc.inCritical ∨ t.pc = GuiPc.releasing) →
    t.sys.holders = [TaskId.gui])

/-- Decides whether a startup run halted. -/
def StartupResult.halts : StartupResult → Bool
  | .halted _ => true
  | .completed _ => false

/-!  Theorems about the embedded program. -/

/-- C2: after N firings of the tick callback (and no other clock
writes) the logical clock equals N × LV_TICK_PERIOD_MS with the period
configured as 1 ms; each firing advances the clock by exactly the
period, so the clock is non-decreasing with no missed or duplicate
increments. -/
theorem clock_after_n_ticks (n : Nat) :
    clockAfter n = n * LV_TICK_PERIOD_MS ∧
    LV_TICK_PERIOD_MS = 1 ∧
    clockAfter (n + 1) = clockAfter n + LV_TICK_PERIOD_MS ∧
    clockAfter n ≤ clockAfter (n + 1) := by
  have h : ∀ m, clockAfter m = m * LV_TICK_PERIOD_MS := by
    intro m
    induction m with
    | zero => rfl
    | succ k ih => simp [clockAfter, lv_tick_inc, ih, Nat.succ_mul]
  exact ⟨h n, rfl, rfl, Nat.le_add_right _ _⟩

/-- C5: a firing of the tick callback advances the logical clock by
exactly LV_TICK_PERIOD_MS and leaves the mutex holder list, the count of
GUI-state mutations and the registered display buffers unchanged; in
particular it does not acquire the GUI lock. -/
theorem lv_tick_task_effect (s : SysState) :
    (lv_tick_task s).clock = s.clock + LV_TICK_PERIOD_MS ∧
    (lv_tick_task s).holders = s.holders ∧
    (lv_tick_task s).guiMutations = s.guiMutations ∧
    (lv_tick_task s).buffers = s.buffers :=
  ⟨rfl, rfl, rfl, rfl⟩

/-- C10: the buffer size registered with the library is
8 × DISP_BUF_SIZE for the three e-paper controllers IL3820, JD79653A
and UC8151D, and DISP_BUF_SIZE for every other controller. -/
theorem size_in_px_registered (cfg : Config) :
    ((cfg.controller = Controller.IL3820 ∨
      cfg.controller = Controller.JD79653A ∨
      cfg.controller = Controller.UC8151D) →
        (disp_buf cfg).size = 8 * cfg.DISP_BUF_SIZE) ∧
    (cfg.controller ≠ Controller.IL3820 →
      cfg.controller ≠ Controller.JD79653A →
      cfg.controller ≠ Controller.UC8151D →
        (disp_buf cfg).size = cfg.DISP_BUF_SIZE) ∧
    (disp_drv cfg).buffer = some (disp_buf cfg) := by
  rcases cfg with ⟨mono, ctl, touch, n⟩
  refine ⟨?_, ?_, ?_⟩
  · rintro (h | h | h) <;> subst h <;>
      simp [disp_buf, size_in_px, Controller.isEPaper, Nat.mul_comm]
  · intro h1 h2 h3
    cases ctl <;> simp_all [disp_buf, size_in_px, Controller.isEPaper]
  · cases mono <;> rfl

/-- C10 witness: instantiation at an e-paper configuration and at a
non-e-paper configuration. -/
theorem size_in_px_registered_witness :
    (disp_buf (Config.mk true Controller.IL3820 false 100)).size = 8 * 100 ∧
    (disp_buf (Config.mk false Controller.ILI9341 false 100)).size = 100 :=
  ⟨(size_in_px_registered (Config.mk true Controller.IL3820 false 100)).1
      (Or.inl rfl),
   (size_in_px_registered (Config.mk false Controller.ILI9341 false 100)).2.1
      (by decide) (by decide) (by decide)⟩

/-- C6: with a monochrome display configured, the second buffer handed
to the library is the null pointer, and both the rounding callback and
the per-pixel callback are registered. -/
theorem monochrome_registration (cfg : Config) (h : cfg.monochrome = true) :
    buf2 cfg = none ∧
    (disp_buf cfg).buf2 = none ∧
    (disp_drv cfg).rounder_cb = some Callback.disp_driver_rounder ∧
    (disp_drv cfg).set_px_cb = some Callback.disp_driver_set_px ∧
    (disp_drv cfg).buffer = some (disp_buf cfg) := by
  simp [buf2, disp_buf, disp_drv, lv_disp_drv_init, h]

/-- Configuration used to instantiate the monochrome scenario: an
SSD1306 monochrome display with no touch controller. -/
def ssd1306Cfg : Config :=
  { monochrome := true, controller := Controller.SSD1306,
    touch := false, DISP_BUF_SIZE := 1024 }

/-- C6 witness: the monochrome registration facts at the SSD1306
configuration. -/
theorem monochrome_registration_witness :
    buf2 ssd1306Cfg = none ∧
    (disp_buf ssd1306Cfg).buf2 = none ∧
    (disp_drv ssd1306Cfg).rounder_cb = some Callback.disp_driver_rounder ∧
    (disp_drv ssd1306Cfg).set_px_cb = some Callback.disp_driver_set_px ∧
    (disp_drv ssd1306Cfg).buffer = some (disp_buf ssd1306Cfg) :=
  monochrome_registration ssd1306Cfg rfl

/-- C7 scenario configuration: a color (non-monochrome) display with
double buffering; DISP_BUF_SIZE is 320 × 240 color elements of 2 bytes
each, so each buffer is 320 × 240 × 2 bytes. -/
def colorCfg : Config :=
  { monochrome := false, controller := Controller.ILI9341,
    touch := false, DISP_BUF_SIZE := 320 * 240 }

/-- C7: in the color double-buffered scenario both buffers are present
and distinct, the flush callback is registered, the registered size is
the full 320 × 240 element count, and one steady-state iteration is the
finite action sequence delay, take, handler, give — it returns, blocking
only at the delay and the lock wait. -/
theorem color_double_buffered_scenario :
    buf2 colorCfg = some BufRef.buf2 ∧
    (disp_buf colorCfg).buf1 = some BufRef.buf1 ∧
    (disp_buf colorCfg).buf2 = some BufRef.buf2 ∧
    BufRef.buf1 ≠ BufRef.buf2 ∧
    (disp_drv colorCfg).flush_cb = some Callback.disp_driver_flush ∧
    (disp_buf colorCfg).size = 320 * 240 ∧
    guiLoopBody true = [Action.vTaskDelay 10, Action.semTake true,
                        Action.lv_task_handler, Action.semGive] := by
  refine ⟨rfl, rfl, rfl, by decide, rfl, rfl, rfl⟩

/-- C1: every steady-state iteration of the render loop is the action
sequence sleep 10 ms, unbounded-wait take (returning pdTRUE), one
lv_task_handler call, give; the handler runs exactly once per iteration
and from a state in which the gui task holds the mutex, the mutex is
free again at the iteration's end, and the trace is defined for every
iteration count with each iteration strictly extending the previous
trace — the loop never returns. -/
theorem render_loop_steady_state (n : Nat) (s : SysState) :
    guiLoopTrace (n + 1) = guiLoopTrace n ++
      [Action.vTaskDelay 10, Action.semTake true,
       Action.lv_task_handler, Action.semGive] ∧
    guiLoopIteration.count Action.lv_task_handler = 1 ∧
    (runActions s [Action.vTaskDelay 10, Action.semTake true]).holders
      = [TaskId.gui] ∧
    (runActions s guiLoopIteration).holders = [] ∧
    (runActions s guiLoopIteration).guiMutations = s.guiMutations + 1 ∧
    (guiLoopTrace (n + 1)).length = (guiLoopTrace n).length + 4 := by
  refine ⟨rfl, rfl, rfl, rfl, rfl, ?_⟩
  simp [guiLoopTrace, guiLoopIteration, guiLoopBody, xSemaphoreTakeMaxDelay]

/-- C9: the handler call and the mutex give appear in an iteration
exactly when the take result is success; an iteration whose take fails
consists of the delay and the failed take only and leaves the state
unchanged; an iteration whose take succeeds gives the mutex back exactly
once. -/
theorem render_loop_take_guard (r : Bool) (s : SysState) :
    (Action.lv_task_handler ∈ guiLoopBody r ↔ r = true) ∧
    (Action.semGive ∈ guiLoopBody r ↔ r = true) ∧
    guiLoopBody false = [Action.vTaskDelay 10, Action.semTake false] ∧
    runActions s (guiLoopBody false) = s ∧
    (guiLoopBody true).count Action.lv_task_handler = 1 ∧
    (guiLoopBody true).count Action.semGive = 1 := by
  cases r <;>
    simp [guiLoopBody, runActions, applyAction]

/-- The guiTask trace with one loop iteration, computed as a concrete
list for each touch-configuration case. -/
theorem guiTaskTrace_eq (cfg : Config) :
    guiTaskTrace cfg 1 =
      if cfg.touch then
        [Event.createMutex, Event.lv_init, Event.lvgl_driver_init,
         Event.lv_disp_buf_init, Event.lv_disp_drv_register,
         Event.lv_indev_drv_register, Event.esp_timer_create,
         Event.esp_timer_start_periodic, Event.create_demo_application,
         Event.loopIteration 0]
      else
        [Event.createMutex, Event.lv_init, Event.lvgl_driver_init,
         Event.lv_disp_buf_init, Event.lv_disp_drv_register,
         Event.esp_timer_create, Event.esp_timer_start_periodic,
         Event.create_demo_application, Event.loopIteration 0] := by
  cases h : cfg.touch <;>
    simp [guiTaskTrace, startupTrace, h, List.range_succ]

/-- C3: the startup events occur in the strict source order — mutex
creation, lv_init, driver init, buffer registration, display-driver
registration, input-device registration (exactly when a touch controller
is configured), timer creation, timer start, widget-tree construction —
and the first steady-state loop iteration comes only after all of them;
in particular driver initialization precedes the timer start and the
timer start precedes the first iteration. -/
theorem startup_strict_order (cfg : Config) :
    evIdx cfg Event.createMutex < evIdx cfg Event.lv_init ∧
    evIdx cfg Event.lv_init < evIdx cfg Event.lvgl_driver_init ∧
    evIdx cfg Event.lvgl_driver_init < evIdx cfg Event.lv_disp_buf_init ∧
    evIdx cfg Event.lv_disp_buf_init < evIdx cfg Event.lv_disp_drv_register ∧
    (cfg.touch = true →
      evIdx cfg Event.lv_disp_drv_register
          < evIdx cfg Event.lv_indev_drv_register ∧
      evIdx cfg Event.lv_indev_drv_register
          < evIdx cfg Event.esp_timer_create) ∧
    (cfg.touch = false → Event.lv_indev_drv_register ∉ guiTaskTrace cfg 1) ∧
    evIdx cfg Event.lv_disp_drv_register < evIdx cfg Event.esp_timer_create ∧
    evIdx cfg Event.esp_timer_create < evIdx cfg Event.esp_timer_start_periodic ∧
    evIdx cfg Event.esp_timer_start_periodic
        < evIdx cfg Event.create_demo_application ∧
    evIdx cfg Event.create_demo_application < evIdx cfg (Event.loopIteration 0) ∧
    Event.loopIteration 0 ∈ guiTaskTrace cfg 1 := by
  have ht := guiTaskTrace_eq cfg
  cases h : cfg.touch <;> rw [h] at ht <;> simp at ht <;>
    simp only [evIdx, ht, h] <;> decide

/-- Configuration used to instantiate the touch-configured ordering: a
color display with a touch controller enabled. -/
def touchCfg : Config :=
  { monochrome := false, controller := Controller.ILI9341,
    touch := true, DISP_BUF_SIZE := 100 }

/-- C3 witness: the configuration-dependent input-registration ordering
discharged at a touch-enabled configuration. -/
theorem startup_strict_order_witness :
    evIdx touchCfg Event.lv_disp_drv_register
        < evIdx touchCfg Event.lv_indev_drv_register ∧
    evIdx touchCfg Event.lv_indev_drv_register
        < evIdx touchCfg Event.esp_timer_create :=
  (startup_strict_order touchCfg).2.2.2.2.1 rfl

/-- C4 counterexample: an environment in which xSemaphoreCreateMutex
fails (returns NULL) while both timer calls succeed.  The startup
sequence does not halt — it runs to completion with no lock created —
so a GUI-Lock creation failure is not fatal, contrary to the claim that
every startup failure halts the device. -/
theorem startup_mutex_failure_not_fatal :
    (Env.mk none EspErr.ESP_OK EspErr.ESP_OK).mutexCreate = none ∧
    StartupResult.halts
      (runStartup (Env.mk none EspErr.ESP_OK EspErr.ESP_OK)) = false ∧
    runStartup (Env.mk none EspErr.ESP_OK EspErr.ESP_OK)
      = StartupResult.completed false := by
  decide

/-- C4 amended: only the two ESP_ERROR_CHECK-guarded timer calls are
fatal during startup — a failing esp_timer_create or a failing
esp_timer_start_periodic halts initialization — while the result of
xSemaphoreCreateMutex is never checked: when the timer calls succeed the
startup sequence completes regardless of whether the mutex was
created. -/
theorem startup_failure_semantics (env : Env) :
    (env.timerCreate ≠ EspErr.ESP_OK →
      runStartup env = StartupResult.halted Event.esp_timer_create) ∧
    (env.timerCreate = EspErr.ESP_OK → env.timerStart ≠ EspErr.ESP_OK →
      runStartup env = StartupResult.halted Event.esp_timer_start_periodic) ∧
    (env.timerCreate = EspErr.ESP_OK → env.timerStart = EspErr.ESP_OK →
      runStartup env = StartupResult.completed env.mutexCreate.isSome) :=
  ⟨fun h => by simp [runStartup, h],
   fun h1 h2 => by simp [runStartup, h1, h2],
   fun h1 h2 => by simp [runStartup, h1, h2]⟩

/-- C4 witness: the three failure-semantics cases discharged at concrete
environments. -/
theorem startup_failure_semantics_witness :
    runStartup (Env.mk (some ()) EspErr.ESP_FAIL EspErr.ESP_OK)
      = StartupResult.halted Event.esp_timer_create ∧
    runStartup (Env.mk (some ()) EspErr.ESP_OK EspErr.ESP_FAIL)
      = StartupResult.halted Event.esp_timer_start_periodic ∧
    runStartup (Env.mk (some ()) EspErr.ESP_OK EspErr.ESP_OK)
      = StartupResult.completed true :=
  ⟨(startup_failure_semantics (Env.mk (some ()) EspErr.ESP_FAIL EspErr.ESP_OK)).1
      (by decide),
   (startup_failure_semantics (Env.mk (some ()) EspErr.ESP_OK EspErr.ESP_FAIL)).2.1
      rfl (by decide),
   (startup_failure_semantics (Env.mk (some ()) EspErr.ESP_OK EspErr.ESP_OK)).2.2
      rfl rfl⟩

/-- The lock invariant holds initially. -/
theorem lockInv_init (cfg : Config) : LockInv (initTs cfg) := by
  constructor
  · intro _; rfl
  · rintro (h | h) <;> simp [initTs] at h

/-- The lock invariant is preserved by every step. -/
theorem lockInv_step {t t' : TsState} (hinv : LockInv t) (hs : Step t t') :
    LockInv t' := by
  obtain ⟨h1, h2⟩ := hinv
  cases hs with
  | tick => exact ⟨h1, h2⟩
  | delay h =>
      exact ⟨fun _ => h1 (Or.inl h),
             fun hc => by rcases hc with h' | h' <;> simp at h'⟩
  | take h hfree =>
      exact ⟨fun hc => by rcases hc with h' | h' <;> simp at h',
             fun _ => rfl⟩
  | handler h =>
      exact ⟨fun hc => by rcases hc with h' | h' <;> simp at h',
             fun _ => h2 (Or.inl h)⟩
  | give h =>
      exact ⟨fun _ => rfl,
             fun hc => by rcases hc with h' | h' <;> simp at h'⟩

/-- Every reachable state satisfies the lock invariant. -/
theorem reachable_lockInv {cfg : Config} {t : TsState}
    (h : Reachable cfg t) : LockInv t := by
  induction h with
  | init => exact lockInv_init cfg
  | step hr hs ih => exact lockInv_step ih hs

/-- Under the lock invariant the mutex has at most one holder. -/
theorem lockInv_holders_le_one {t : TsState} (hinv : LockInv t) :
    t.sys.holders.length ≤ 1 := by
  obtain ⟨h1, h2⟩ := hinv
  cases hpc : t.pc with
  | sleeping => simp [h1 (Or.inl hpc)]
  | taking => simp [h1 (Or.inr hpc)]
  | inCritical => simp [h2 (Or.inl hpc)]
  | releasing => simp [h2 (Or.inr hpc)]

/-- A step that changes the GUI state starts from a state in which the
gui task is the unique mutex holder. -/
theorem step_mutation {t t' : TsState} (hinv : LockInv t) (hs : Step t t')
    (hmut : t'.sys.guiMutations ≠ t.sys.guiMutations) :
    t.sys.holders = [TaskId.gui] := by
  cases hs with
  | tick => exact absurd rfl hmut
  | delay h => exact absurd rfl hmut
  | take h hfree => exact absurd rfl hmut
  | handler h => exact hinv.2 (Or.inl h)
  | give h => exact absurd rfl hmut

/-- C8: along every execution from the initial state, at most one task
holds the GUI mutex at any instant, and every step that mutates the GUI
state is taken while the mutating task holds the mutex, so no two
GUI-state mutations interleave partially. -/
theorem gui_lock_mutual_exclusion (cfg : Config) (t t' : TsState)
    (hr : Reachable cfg t) (hs : Step t t') :
    t.sys.holders.length ≤ 1 ∧
    t'.sys.holders.length ≤ 1 ∧
    (t'.sys.guiMutations ≠ t.sys.guiMutations →
      t.sys.holders = [TaskId.gui]) :=
  have hinv := reachable_lockInv hr
  ⟨lockInv_holders_le_one hinv,
   lockInv_holders_le_one (lockInv_step hinv hs),
   fun hmut => step_mutation hinv hs hmut⟩

/-- Configuration used to instantiate the mutual-exclusion theorem. -/
def mutexCfg : Config :=
  { monochrome := true, controller := Controller.SSD1306,
    touch := false, DISP_BUF_SIZE := 1024 }

/-- C8 witness: the mutual-exclusion facts at the initial state and a
tick step out of it. -/
theorem gui_lock_mutual_exclusion_witness :
    (initTs mutexCfg).sys.holders.length ≤ 1 ∧
    ({ initTs mutexCfg with
        sys := lv_tick_task (initTs mutexCfg).sys }).sys.holders.length ≤ 1 ∧
    (({ initTs mutexCfg with
        sys := lv_tick_task (initTs mutexCfg).sys }).sys.guiMutations
        ≠ (initTs mutexCfg).sys.guiMutations →
      (initTs mutexCfg).sys.holders = [TaskId.gui]) :=
  gui_lock_mutual_exclusion mutexCfg (initTs mutexCfg) _
    Reachable.init (Step.tick (initTs mutexCfg))

end LvglDemo
